import Mathlib

/-!
Shallow embedding of the banking CLI client (Python sources under
`src/submissions/chen-xiangrui/`): the JSON value model, the domain
models (`models.py`), the transport client (`api_client.py`) and the
service layer (`services.py`), followed by theorems settling the
frozen claims about them.
-/

/-- JSON values as delivered by the wire / `aiohttp`'s `response.json()`.
Numbers are modelled as exact rationals; `null` also stands for Python's
`None` (the two coincide for parsed JSON payloads). -/
inductive Json where
  | null : Json
  | bool : Bool → Json
  | num : ℚ → Json
  | str : String → Json
  | arr : List Json → Json
  | obj : List (String × Json) → Json

/-- Python truthiness (`bool(x)`) of a JSON value: `None`/`null` and
empty containers are falsy, `0` and `""` are falsy, everything else truthy. -/
def Json.truthy : Json → Bool
  | .null => false
  | .bool b => b
  | .num q => decide (q ≠ 0)
  | .str s => decide (s ≠ "")
  | .arr xs => !xs.isEmpty
  | .obj kvs => !kvs.isEmpty

/-- Python's `a or b` on JSON-ish values: `a` when truthy, else `b`. -/
def Json.pyOr (a b : Json) : Json := if a.truthy then a else b

/-- `str(x)` for a JSON value, as used in f-strings.  The scalar cases
mirror Python (`None` → "None", booleans capitalised, strings verbatim);
the rendering of composite values is schematic (no claim exercises it). -/
def Json.pyStr : Json → String
  | .null => "None"
  | .bool b => if b then "True" else "False"
  | .num q => toString q
  | .str s => s
  | .arr _ => "<list>"
  | .obj _ => "<dict>"

/-- Python's `str.strip()` with no argument: drop leading and trailing
whitespace. -/
def pyStrip (s : String) : String :=
  ⟨((s.data.dropWhile Char.isWhitespace).reverse.dropWhile Char.isWhitespace).reverse⟩

/-- `data.get(key, default)` on an association list standing for a dict. -/
def dictGetD (kvs : List (String × Json)) (key : String) (default : Json) : Json :=
  (kvs.lookup key).getD default

/-- Digits of a decimal-literal fragment to a natural number;
`none` when a non-digit appears. -/
def digitsNat (cs : List Char) : Option Nat :=
  cs.foldlM (fun acc c => if c.isDigit then some (acc * 10 + (c.toNat - '0'.toNat)) else none) 0

/-- Parse a plain decimal literal (`[+-]digits[.digits]`, at least one digit)
to a rational, the fragment of Python's `Decimal(string)` grammar the client
can encounter; other `Decimal` spellings (exponents, `Infinity`, …) never
arise from this client's payloads and are rejected here. -/
def parseDecimal (s : String) : Option ℚ :=
  let (sign, body) :=
    if s.startsWith "-" then ((-1 : ℚ), s.drop 1)
    else if s.startsWith "+" then ((1 : ℚ), s.drop 1)
    else ((1 : ℚ), s)
  match (body.splitOn ".").map String.toList with
  | [intPart] =>
      if intPart = [] then none
      else (digitsNat intPart).map (fun n => sign * (n : ℚ))
  | [intPart, fracPart] =>
      if intPart = [] ∧ fracPart = [] then none
      else do
        let i ← digitsNat intPart
        let f ← digitsNat fracPart
        some (sign * ((i : ℚ) + (f : ℚ) / (10 : ℚ) ^ fracPart.length))
  | _ => none

/-- `Decimal(str(x))` applied to a JSON value `x`: exact for numbers,
parses decimal strings, and fails (Python `InvalidOperation`) on
anything else (`Decimal("None")`, `Decimal("True")`, …). -/
def decimalOfJson : Json → Option ℚ
  | .num q => some q
  | .str s => parseDecimal s
  | _ => none

/-! ## models.py -/

/-- `TransferRequest` (frozen dataclass): immutable once built. -/
structure TransferRequest where
  from_account : String
  to_account : String
  amount : ℚ
deriving DecidableEq

/-- `TransferRequest.__post_init__` validation, as a fallible smart
constructor: Python raises `ValueError(msg)`; here the message is the
error value.  Checks run in source order: source empty (falsy or
whitespace-only), destination empty, equal accounts (untrimmed
comparison), non-positive amount. -/
def TransferRequest.make (from_account to_account : String) (amount : ℚ) :
    Except String TransferRequest :=
  if from_account = "" ∨ pyStrip from_account = "" then
    .error "Source account cannot be empty"
  else if to_account = "" ∨ pyStrip to_account = "" then
    .error "Destination account cannot be empty"
  else if from_account = to_account then
    .error "Source and destination accounts must be different"
  else if amount ≤ 0 then
    .error "Transfer amount must be positive"
  else
    .ok ⟨from_account, to_account, amount⟩

/-- `TransferRequest.to_dict`: wire JSON shape of the request. -/
def TransferRequest.to_dict (r : TransferRequest) : List (String × Json) :=
  [("fromAccount", .str r.from_account),
   ("toAccount", .str r.to_account),
   ("amount", .num r.amount)]

/-- `TransferResponse` (frozen dataclass).  Fields that Python leaves
untyped at runtime are carried as `Json`; the `Decimal` fields are exact
rationals; `message`/`bonus_points`/`permission_level` are `Json.null`
when absent, matching `dict.get(k)` returning `None`. -/
structure TransferResponse where
  transaction_id : Json
  status : Json
  from_account : Json
  to_account : Json
  amount : ℚ
  timestamp : Json
  message : Json
  bonus_points : Json
  permission_level : Json
  new_from_balance : Option ℚ
  new_to_balance : Option ℚ

/-- The `new_*_balance` expressions of `TransferResponse.from_dict`:
`Decimal(str(data.get(k, 0))) if data.get(k) else None`.  The guard is
Python truthiness of `data.get(k)` (so a present value `0` yields `None`);
outer `none` is a raised `InvalidOperation` from `Decimal`. -/
def parseWireBalance (data : List (String × Json)) (key : String) :
    Option (Option ℚ) :=
  let v := dictGetD data key .null
  if v.truthy then (decimalOfJson v).map some else some none

/-- `TransferResponse.from_dict`.  `now` is `datetime.now().isoformat()`.
`none` models a raised exception from a `Decimal` conversion; every
other field access is total (`dict.get` with defaults). -/
def TransferResponse.from_dict (now : String) (data : List (String × Json)) :
    Option TransferResponse :=
  match decimalOfJson (dictGetD data "amount" (.num 0)),
        parseWireBalance data "newFromAccountBalance",
        parseWireBalance data "newToAccountBalance" with
  | some amount, some nfb, some ntb =>
    some
    { transaction_id := dictGetD data "transactionId" (.str "")
      status := dictGetD data "status" (.str "UNKNOWN")
      from_account := dictGetD data "fromAccount" (.str "")
      to_account := dictGetD data "toAccount" (.str "")
      amount := amount
      timestamp :=
        (dictGetD data "timestamp" .null).pyOr
          ((dictGetD data "issuedAt" .null).pyOr (.str now))
      message := dictGetD data "message" .null
      bonus_points := dictGetD data "bonusPoints" .null
      permission_level := dictGetD data "permissionLevel" .null
      new_from_balance := nfb
      new_to_balance := ntb }
  | _, _, _ => none

/-- `AuthToken` (frozen dataclass).  `token` is carried as `Json` because
Python never enforces the `str` annotation on values threaded from
responses; time instants are abstract `Nat` ticks. -/
structure AuthToken where
  token : Json
  expires_at : Option Nat
  token_type : String

/-- `AuthToken.is_expired` at the current instant `now`
(`datetime.now() >= expires_at`; never expires when `expires_at` absent). -/
def AuthToken.is_expired (t : AuthToken) (now : Nat) : Bool :=
  match t.expires_at with
  | none => false
  | some e => decide (e ≤ now)

/-- `AuthToken.get_header_value`: the `Authorization` header payload. -/
def AuthToken.get_header_value (t : AuthToken) : String :=
  t.token_type ++ " " ++ t.token.pyStr

/-! ## config.py -/

/-- `Config` dataclass (only the fields the client reads). -/
structure Config where
  base_url : String
  timeout : Nat
  max_retries : Nat
  log_level : String

/-- The default configuration values of `config.py`. -/
def Config.defaults : Config :=
  { base_url := "http://localhost:8123", timeout := 30, max_retries := 3
    log_level := "INFO" }

/-! ## api_client.py -/

/-- The exceptions `_make_request` and its callers can raise:
`BankingAPIError(message, status_code)`, the built-in `ConnectionError`,
and the built-ins Python raises on type misuse of a response value
(`.get` on a non-dict, `len` of an unsized value). -/
inductive ReqError where
  | apiError : String → Option Nat → ReqError
  | connectionError : String → ReqError
  | attributeError : ReqError
  | typeError : ReqError
deriving DecidableEq

/-- Outcome of one HTTP attempt, as seen through `aiohttp`: an HTTP
response (status, raw body text, and the parsed JSON body when the body
is valid JSON — `none` models `response.json()` raising
`ContentTypeError`), an `asyncio.TimeoutError`, or an
`aiohttp.ClientConnectionError` with its message. -/
inductive HttpOutcome where
  | response : Nat → String → Option Json → HttpOutcome
  | timeout : HttpOutcome
  | connectionFailure : String → HttpOutcome

/-- A transport oracle: the outcome of the attempt with the given index
(`retry_count`).  Headers, bodies and query parameters do not influence
the oracle; they are threaded by the wrapper functions below. -/
def Transport : Type := Nat → HttpOutcome

/-- `BankingAPIClient._make_request` starting at `retry_count`, returning
the result (parsed JSON or raised error) together with the list of
back-off sleeps performed (`asyncio.sleep(2 ** retry_count)` before each
retry).  Branch order follows the source: status ≥ 400 raises
`BankingAPIError` immediately; a non-JSON body with status < 300 yields
the synthetic success envelope, otherwise `BankingAPIError`; timeout and
connection failure retry while `retry_count < max_retries` and raise
`ConnectionError` after exhaustion. -/
def makeRequest (cfg : Config) (tr : Transport) (method endpoint : String)
    (retry_count : Nat) : Except ReqError Json × List Nat :=
  let url := cfg.base_url ++ endpoint
  match tr retry_count with
  | .response status text bodyJson =>
      if status ≥ 400 then
        (.error (.apiError
          ("API error (status " ++ toString status ++ "): " ++ text)
          (some status)), [])
      else
        match bodyJson with
        | some j => (.ok j, [])
        | none =>
            if status < 300 then
              (.ok (.obj [("status", .str "success"), ("message", .str text)]), [])
            else
              (.error (.apiError ("Invalid JSON response: " ++ text) none), [])
  | .timeout =>
      if h : retry_count < cfg.max_retries then
        let rest := makeRequest cfg tr method endpoint (retry_count + 1)
        (rest.1, 2 ^ retry_count :: rest.2)
      else
        (.error (.connectionError
          ("Request timeout after " ++ toString cfg.timeout ++ "s: "
            ++ method ++ " " ++ url)), [])
  | .connectionFailure e =>
      if h : retry_count < cfg.max_retries then
        let rest := makeRequest cfg tr method endpoint (retry_count + 1)
        (rest.1, 2 ^ retry_count :: rest.2)
      else
        (.error (.connectionError
          ("Connection failed: " ++ e
            ++ "\nPlease ensure the banking server is running at "
            ++ cfg.base_url)), [])
termination_by cfg.max_retries - retry_count

/-- One full `_make_request` call as its callers see it (initial
`retry_count = 0`, sleeps discarded). -/
def request (cfg : Config) (tr : Transport) (method endpoint : String) :
    Except ReqError Json :=
  (makeRequest cfg tr method endpoint 0).1

/-- `response.get(key, default)` where `response` may be any JSON value:
Python raises `AttributeError` when the value is not a dict. -/
def Json.getAttrD : Json → String → Json → Except ReqError Json
  | .obj kvs, key, default => .ok (dictGetD kvs key default)
  | _, _, _ => .error .attributeError

/-- The mutable client state the claims touch: the `auth_token` field of
`BankingAPIClient`. -/
structure ClientState where
  auth_token : Option AuthToken

/-- Lines 107–110 of `_make_request`: the headers attached to an attempt,
as a function of the client state and the current instant. -/
def requestHeaders (st : ClientState) (now : Nat) : List (String × String) :=
  match st.auth_token with
  | some t => if t.is_expired now then [] else [("Authorization", t.get_header_value)]
  | none => []

/-- `BankingAPIClient.set_auth_token`. -/
def set_auth_token (st : ClientState) (token : Json) : ClientState :=
  { st with auth_token := some { token := token, expires_at := none, token_type := "Bearer" } }

/-- `BankingAPIClient.get_auth_token`: POST `/authToken`; raises
`BankingAPIError` when the response lacks a truthy `token` field;
`response.get` raises `AttributeError` on a non-dict response. -/
def get_auth_token (cfg : Config) (tr : Transport) : Except ReqError Json := do
  let response ← request cfg tr "POST" "/authToken"
  let token ← response.getAttrD "token" .null
  if token.truthy then .ok token
  else .error (.apiError "No token in authentication response" none)

/-- `BankingAPIClient.validate_account`: GET
`/accounts/validate/{account_number}`; the trailing debug log also calls
`response.get("status", "UNKNOWN")` inside the `try`, so a non-dict
response raises `AttributeError` (not caught — only `BankingAPIError`
is, and it becomes `False`). -/
def validate_account (cfg : Config) (tr : Transport) (account_number : String) :
    Except ReqError Json :=
  match request cfg tr "GET" ("/accounts/validate/" ++ account_number) with
  | .ok response => do
      let is_valid ← response.getAttrD "isValid" (.bool false)
      let _ ← response.getAttrD "status" (.str "UNKNOWN")
      .ok is_valid
  | .error (.apiError _ _) => .ok (.bool false)
  | .error e => .error e

/-- `BankingAPIClient.get_account_balance`: GET
`/accounts/balance/{account_number}`; errors propagate.  The debug log
reads `balance`/`currency` with `.get`, raising `AttributeError` on a
non-dict response. -/
def get_account_balance (cfg : Config) (tr : Transport) (account_number : String) :
    Except ReqError Json :=
  match request cfg tr "GET" ("/accounts/balance/" ++ account_number) with
  | .ok response => do
      let _ ← response.getAttrD "balance" (.num 0)
      let _ ← response.getAttrD "currency" (.str "USD")
      .ok response
  | .error e => .error e

/-- `BankingAPIClient.list_accounts`: GET `/accounts`; unwraps an
`accounts` envelope (the log's `len(accounts)` raises `TypeError` when
the unwrapped value is unsized), else returns a plain list verbatim,
else the empty list; errors propagate. -/
def list_accounts (cfg : Config) (tr : Transport) : Except ReqError Json :=
  match request cfg tr "GET" "/accounts" with
  | .ok response =>
      match response with
      | .obj kvs =>
          match kvs.lookup "accounts" with
          | some accounts =>
              match accounts with
              | .arr _ | .str _ | .obj _ => .ok accounts
              | _ => .error .typeError
          | none => .ok (.arr [])
      | .arr xs => .ok (.arr xs)
      | _ => .ok (.arr [])
  | .error e => .error e

/-- `BankingAPIClient.transfer`: POST `/transfer`; errors propagate. -/
def transfer (cfg : Config) (tr : Transport) (_transfer_data : List (String × Json)) :
    Except ReqError Json :=
  request cfg tr "POST" "/transfer"

/-- `BankingAPIClient.validate_token`: saves `auth_token`, overrides it
with the given token, POSTs `/auth/validate`, and restores the saved
token only on the non-raising path — the `except BankingAPIError`
branch returns `False` with the override still in place, and any other
exception propagates with the override still in place. -/
def validate_token (cfg : Config) (tr : Transport) (st : ClientState)
    (token : String) : Except ReqError Json × ClientState :=
  let original_token := st.auth_token
  let st1 : ClientState :=
    { st with auth_token := some { token := .str token, expires_at := none, token_type := "Bearer" } }
  match request cfg tr "POST" "/auth/validate" with
  | .ok response =>
      let st2 : ClientState := { st1 with auth_token := original_token }
      match response.getAttrD "valid" (.bool false) with
      | .ok is_valid => (.ok is_valid, st2)
      | .error e => (.error e, st2)
  | .error (.apiError _ _) => (.ok (.bool false), st1)
  | .error e => (.error e, st1)

/-- `BankingAPIClient.get_transaction_history`: GET
`/transactions/history`; returns the `transactions` field with default
`[]`; errors propagate.  `account_number`/`limit` only shape the query
parameters, which the oracle abstracts. -/
def get_transaction_history (cfg : Config) (tr : Transport)
    (_account_number : Option String) (_limit : Nat) : Except ReqError Json :=
  match request cfg tr "GET" "/transactions/history" with
  | .ok response => response.getAttrD "transactions" (.arr [])
  | .error e => .error e

/-! ## services.py -/

namespace TransferService

/-- `TransferService.authenticate`: on success stores the token into the
client via `set_auth_token` and returns it; on any exception returns
`None` leaving the client state untouched. -/
def authenticate (cfg : Config) (tr : Transport) (st : ClientState) :
    Option Json × ClientState :=
  match get_auth_token cfg tr with
  | .ok token => (some token, set_auth_token st token)
  | .error _ => (none, st)

/-- `TransferService.validate_account`: delegates to the client and
swallows every exception into `False`. -/
def service_validate_account (cfg : Config) (tr : Transport)
    (account_number : String) : Json :=
  match validate_account cfg tr account_number with
  | .ok v => v
  | .error _ => .bool false

/-- `TransferService.get_transaction_history`: the `except` clause logs
and then re-raises, so the call is an identity wrapper around the client
method — errors propagate, they are not swallowed. -/
def service_get_transaction_history (cfg : Config) (tr : Transport)
    (account_number : Option String) (limit : Nat) : Except ReqError Json :=
  get_transaction_history cfg tr account_number limit

/-- `TransferService.validate_token`: delegates to the client and
swallows every exception into `False` (the client state still carries
whatever the client method left in `auth_token`). -/
def service_validate_token (cfg : Config) (tr : Transport) (st : ClientState)
    (token : String) : Json × ClientState :=
  match validate_token cfg tr st token with
  | (.ok v, st2) => (v, st2)
  | (.error _, st2) => (.bool false, st2)

end TransferService

/-- A transient transport failure: a timeout or a connection failure
(the two outcomes `_make_request` retries on). -/
def HttpOutcome.transient : HttpOutcome → Prop :=
  fun o => o = .timeout ∨ ∃ e, o = .connectionFailure e

/-! ## Theorems -/

/-- C7: every `TransferRequest` construction attempt with a
whitespace-empty source or destination, equal accounts, or a
non-positive amount fails with the corresponding validation error (in
source-order precedence), and every other attempt succeeds with exactly
the given fields (the record is a frozen dataclass, immutable by
construction).  Construction is pure, so no request is sent on failure. -/
theorem transferRequest_validation (f t : String) (a : ℚ) :
    (pyStrip f = "" →
      TransferRequest.make f t a = .error "Source account cannot be empty") ∧
    (pyStrip f ≠ "" → pyStrip t = "" →
      TransferRequest.make f t a = .error "Destination account cannot be empty") ∧
    (pyStrip f ≠ "" → pyStrip t ≠ "" → f = t →
      TransferRequest.make f t a = .error "Source and destination accounts must be different") ∧
    (pyStrip f ≠ "" → pyStrip t ≠ "" → f ≠ t → a ≤ 0 →
      TransferRequest.make f t a = .error "Transfer amount must be positive") ∧
    (pyStrip f ≠ "" → pyStrip t ≠ "" → f ≠ t → 0 < a →
      TransferRequest.make f t a = .ok ⟨f, t, a⟩) := by
  have hempty : pyStrip "" = "" := by decide
  refine ⟨?_, ?_, ?_, ?_, ?_⟩
  · intro h
    simp [TransferRequest.make, if_pos (Or.inr h)]
  · intro hf ht
    have hf' : ¬ (f = "" ∨ pyStrip f = "") := by
      rintro (rfl | h); exacts [hf hempty, hf h]
    simp [TransferRequest.make, hf', if_pos (Or.inr ht)]
  · intro hf ht heq
    have hf' : ¬ (f = "" ∨ pyStrip f = "") := by
      rintro (rfl | h); exacts [hf hempty, hf h]
    have ht' : ¬ (t = "" ∨ pyStrip t = "") := by
      rintro (rfl | h); exacts [ht hempty, ht h]
    simp [TransferRequest.make, hf', ht', heq]
  · intro hf ht hne hle
    have hf' : ¬ (f = "" ∨ pyStrip f = "") := by
      rintro (rfl | h); exacts [hf hempty, hf h]
    have ht' : ¬ (t = "" ∨ pyStrip t = "") := by
      rintro (rfl | h); exacts [ht hempty, ht h]
    simp [TransferRequest.make, hf', ht', hne, hle]
  · intro hf ht hne hpos
    have hf' : ¬ (f = "" ∨ pyStrip f = "") := by
      rintro (rfl | h); exacts [hf hempty, hf h]
    have ht' : ¬ (t = "" ∨ pyStrip t = "") := by
      rintro (rfl | h); exacts [ht hempty, ht h]
    simp [TransferRequest.make, hf', ht', hne, not_le.mpr hpos]

/-- C7 witness: a well-formed request is built verbatim, and a
whitespace-only source account is rejected with the source error. -/
theorem transferRequest_validation_witness :
    TransferRequest.make "ACC1000" "ACC1001" 100 = .ok ⟨"ACC1000", "ACC1001", 100⟩ ∧
    TransferRequest.make "  " "ACC1001" 100 = .error "Source account cannot be empty" := by
  constructor
  · exact (transferRequest_validation "ACC1000" "ACC1001" 100).2.2.2.2
      (by decide) (by decide) (by decide) (by norm_num)
  · exact (transferRequest_validation "  " "ACC1001" 100).1 (by decide)

/-- C1: contrary to the frame claim, `validate_token` does not restore
the previously configured token on the `ApiError` path: with a transport
that always answers 404, the call returns `False` but leaves the
one-shot override token in `auth_token` (the restore on line 337 only
runs when `_make_request` returns normally; the `except BankingAPIError`
branch skips it).  Evaluated here at the failing input. -/
theorem validate_token_not_restored_on_api_error :
    validate_token Config.defaults (fun _ => .response 404 "Not Found" none)
        ⟨some { token := .str "orig", expires_at := none, token_type := "Bearer" }⟩ "tok" =
      (.ok (.bool false),
        ⟨some { token := .str "tok", expires_at := none, token_type := "Bearer" }⟩) ∧
    (some { token := .str "tok", expires_at := none, token_type := "Bearer" } : Option AuthToken) ≠
      some { token := .str "orig", expires_at := none, token_type := "Bearer" } := by
  constructor
  · simp [validate_token, request, makeRequest, Config.defaults]
  · simp

/-- C2 counterexample: with a transport whose every attempt fails with a
connection error, `TransferService.get_transaction_history` propagates
the raised `ConnectionError` — it does not return an empty sequence. -/
theorem service_history_propagates_connection_failure :
    TransferService.service_get_transaction_history Config.defaults
        (fun _ => .connectionFailure "boom") none 10 =
      .error (.connectionError
        "Connection failed: boom\nPlease ensure the banking server is running at http://localhost:8123") ∧
    TransferService.service_get_transaction_history Config.defaults
        (fun _ => .connectionFailure "boom") none 10 ≠ .ok (.arr []) := by
  constructor
  · simp [TransferService.service_get_transaction_history, get_transaction_history,
      request, makeRequest, Config.defaults]
  · simp [TransferService.service_get_transaction_history, get_transaction_history,
      request, makeRequest, Config.defaults]

/-- C2 amended: `TransferService.get_transaction_history` propagates
every transport error unchanged (its `except` clause logs and
re-raises); the empty sequence arises only from a successful dict
response lacking the `transactions` key. -/
theorem service_history_error_policy (cfg : Config) (tr : Transport)
    (acct : Option String) (limit : Nat) :
    (∀ e, request cfg tr "GET" "/transactions/history" = .error e →
      TransferService.service_get_transaction_history cfg tr acct limit = .error e) ∧
    (∀ kvs, request cfg tr "GET" "/transactions/history" = .ok (.obj kvs) →
      kvs.lookup "transactions" = none →
      TransferService.service_get_transaction_history cfg tr acct limit = .ok (.arr [])) := by
  constructor
  · intro e h
    simp [TransferService.service_get_transaction_history, get_transaction_history, h]
  · intro kvs h hmiss
    simp [TransferService.service_get_transaction_history, get_transaction_history, h,
      Json.getAttrD, dictGetD, hmiss]

/-- C2 amended witness: a successful response carrying no `transactions`
key yields the empty list through the service layer. -/
theorem service_history_error_policy_witness :
    TransferService.service_get_transaction_history Config.defaults
      (fun _ => .response 200 "" (some (.obj [("totalReturned", .num 0)]))) none 10 =
      .ok (.arr []) := by
  refine (service_history_error_policy Config.defaults
    (fun _ => .response 200 "" (some (.obj [("totalReturned", .num 0)]))) none 10).2
    [("totalReturned", .num 0)] ?_ ?_
  · simp [request, makeRequest]
  · simp

/-- C3 counterexample: a 302 response with a non-JSON body makes
`_make_request` raise `BankingAPIError("Invalid JSON response: …")` —
the synthetic success envelope is only produced for status < 300,
not for every status < 400. -/
theorem makeRequest_302_non_json_raises :
    request Config.defaults (fun _ => .response 302 "redirect" none) "GET" "/x" =
      .error (.apiError "Invalid JSON response: redirect" none) ∧
    request Config.defaults (fun _ => .response 302 "redirect" none) "GET" "/x" ≠
      .ok (.obj [("status", .str "success"), ("message", .str "redirect")]) := by
  constructor
  · simp [request, makeRequest]
  · simp [request, makeRequest]

/-- C3 amended: for every response whose status is < 300 and whose body
is not valid JSON, `_make_request` returns the synthetic
`{status: "success", message: <raw body>}` envelope; for 300 ≤ status
< 400 with a non-JSON body it raises `ApiError` instead. -/
theorem makeRequest_synthetic_envelope (cfg : Config) (tr : Transport)
    (method endpoint : String) (status : Nat) (text : String) :
    (tr 0 = .response status text none → status < 300 →
      request cfg tr method endpoint =
        .ok (.obj [("status", .str "success"), ("message", .str text)])) ∧
    (tr 0 = .response status text none → 300 ≤ status → status < 400 →
      request cfg tr method endpoint =
        .error (.apiError ("Invalid JSON response: " ++ text) none)) := by
  constructor
  · intro h h3
    have h4 : ¬ 400 ≤ status := by omega
    rw [request, makeRequest.eq_def]
    simp [h, h3, h4]
  · intro h h3 h4
    have h5 : ¬ 400 ≤ status := by omega
    have h6 : ¬ status < 300 := by omega
    rw [request, makeRequest.eq_def]
    simp [h, h5, h6]

/-- C3 amended witness: a 200 response with the plain-text body "pong"
comes back as the synthetic envelope. -/
theorem makeRequest_synthetic_envelope_witness :
    request Config.defaults (fun _ => .response 200 "pong" none) "GET" "/ping" =
      .ok (.obj [("status", .str "success"), ("message", .str "pong")]) :=
  (makeRequest_synthetic_envelope Config.defaults
    (fun _ => .response 200 "pong" none) "GET" "/ping" 200 "pong").1 rfl (by norm_num)

/-- C4 counterexample: when the server returns the plain JSON list
`[1]`, `list_accounts` returns that list verbatim, not the empty
sequence the claim demands. -/
theorem list_accounts_plain_list_returned_verbatim :
    list_accounts Config.defaults (fun _ => .response 200 "[1]" (some (.arr [.num 1]))) =
      .ok (.arr [.num 1]) ∧
    list_accounts Config.defaults (fun _ => .response 200 "[1]" (some (.arr [.num 1]))) ≠
      .ok (.arr []) := by
  constructor
  · simp [list_accounts, request, makeRequest]
  · simp [list_accounts, request, makeRequest]

/-- C4 amended: `list_accounts` never raises on these response shapes —
a plain JSON list is returned verbatim (empty only when the server's
list is empty), and an object lacking the `accounts` key yields the
empty sequence. -/
theorem list_accounts_shapes (cfg : Config) (tr : Transport) :
    (∀ xs, request cfg tr "GET" "/accounts" = .ok (.arr xs) →
      list_accounts cfg tr = .ok (.arr xs)) ∧
    (∀ kvs, request cfg tr "GET" "/accounts" = .ok (.obj kvs) →
      kvs.lookup "accounts" = none →
      list_accounts cfg tr = .ok (.arr [])) := by
  constructor
  · intro xs h
    simp [list_accounts, h]
  · intro kvs h hmiss
    simp [list_accounts, h, hmiss]

/-- C4 amended witness: an object response without an `accounts` key
yields the empty sequence. -/
theorem list_accounts_shapes_witness :
    list_accounts Config.defaults
      (fun _ => .response 200 "" (some (.obj [("totalAccounts", .num 0)]))) =
      .ok (.arr []) := by
  refine (list_accounts_shapes Config.defaults
    (fun _ => .response 200 "" (some (.obj [("totalAccounts", .num 0)])))).2
    [("totalAccounts", .num 0)] ?_ ?_
  · simp [request, makeRequest]
  · simp

/-- Characterisation of a successful `TransferResponse.from_dict` parse:
the three `Decimal` conversions succeed and the record's fields are the
source expressions (shared by the parsing claims below). -/
theorem from_dict_eq_some_iff (now : String) (data : List (String × Json))
    (r : TransferResponse) :
    TransferResponse.from_dict now data = some r ↔
    ∃ amount nfb ntb,
      decimalOfJson (dictGetD data "amount" (.num 0)) = some amount ∧
      parseWireBalance data "newFromAccountBalance" = some nfb ∧
      parseWireBalance data "newToAccountBalance" = some ntb ∧
      r = { transaction_id := dictGetD data "transactionId" (.str "")
            status := dictGetD data "status" (.str "UNKNOWN")
            from_account := dictGetD data "fromAccount" (.str "")
            to_account := dictGetD data "toAccount" (.str "")
            amount := amount
            timestamp :=
              (dictGetD data "timestamp" .null).pyOr
                ((dictGetD data "issuedAt" .null).pyOr (.str now))
            message := dictGetD data "message" .null
            bonus_points := dictGetD data "bonusPoints" .null
            permission_level := dictGetD data "permissionLevel" .null
            new_from_balance := nfb
            new_to_balance := ntb } := by
  simp only [TransferResponse.from_dict]
  rcases h1 : decimalOfJson (dictGetD data "amount" (.num 0)) with _ | amount <;>
    rcases h2 : parseWireBalance data "newFromAccountBalance" with _ | nfb <;>
      rcases h3 : parseWireBalance data "newToAccountBalance" with _ | ntb <;>
        simp [eq_comm]

/-- C6: a response with status ≥ 400 makes `_make_request` fail at once
(no retry, no back-off sleep) with `ApiError` carrying the status code
and the raw body in its message; consequently an always-404 transport
makes `validate_account` return `False` while `get_account_balance`
propagates the `ApiError` with status 404. -/
theorem api_error_immediate_no_retry :
    (∀ (cfg : Config) (tr : Transport) (method endpoint : String) (status : Nat)
        (text : String) (bodyJson : Option Json),
      tr 0 = .response status text bodyJson → 400 ≤ status →
      makeRequest cfg tr method endpoint 0 =
        (.error (.apiError ("API error (status " ++ toString status ++ "): " ++ text)
          (some status)), [])) ∧
    (∀ (cfg : Config) (acct text : String),
      validate_account cfg (fun _ => .response 404 text none) acct = .ok (.bool false) ∧
      get_account_balance cfg (fun _ => .response 404 text none) acct =
        .error (.apiError ("API error (status 404): " ++ text) (some 404))) := by
  constructor
  · intro cfg tr method endpoint status text bodyJson h hs
    rw [makeRequest.eq_def]
    simp [h, hs]
  · intro cfg acct text
    have hreq : ∀ method endpoint, request cfg (fun _ => .response 404 text none) method endpoint =
        .error (.apiError ("API error (status 404): " ++ text) (some 404)) := by
      intro method endpoint
      simp only [request]
      rw [makeRequest.eq_def]
      rfl
    constructor
    · simp [validate_account, hreq]
    · simp [get_account_balance, hreq]

/-- C6 witness: a 500 response raises immediately with no sleeps, and
the 404 scenarios behave as stated at concrete inputs. -/
theorem api_error_immediate_no_retry_witness :
    makeRequest Config.defaults (fun _ => .response 500 "ISE" none) "GET" "/x" 0 =
      (.error (.apiError "API error (status 500): ISE" (some 500)), []) ∧
    validate_account Config.defaults (fun _ => .response 404 "NF" none) "ACC1000" =
      .ok (.bool false) ∧
    get_account_balance Config.defaults (fun _ => .response 404 "NF" none) "ACC1000" =
      .error (.apiError "API error (status 404): NF" (some 404)) := by
  refine ⟨?_, (api_error_immediate_no_retry.2 Config.defaults "ACC1000" "NF").1,
    (api_error_immediate_no_retry.2 Config.defaults "ACC1000" "NF").2⟩
  exact api_error_immediate_no_retry.1 Config.defaults
    (fun _ => .response 500 "ISE" none) "GET" "/x" 500 "ISE" none rfl (by omega)

/-- C8 counterexample: with the `timestamp` key absent but a truthy
`issuedAt` present, `from_dict` takes the `issuedAt` value — not the
current time the claim requires for every input object. -/
theorem from_dict_timestamp_prefers_issuedAt :
    (TransferResponse.from_dict "1970-01-01T00:00:00"
        [("issuedAt", .str "2025-11-01T10:00:00Z")]).map (fun r => r.timestamp) =
      some (.str "2025-11-01T10:00:00Z") ∧
    (TransferResponse.from_dict "1970-01-01T00:00:00"
        [("issuedAt", .str "2025-11-01T10:00:00Z")]).map (fun r => r.timestamp) ≠
      some (.str "1970-01-01T00:00:00") := by
  have h0 : (TransferResponse.from_dict "1970-01-01T00:00:00"
      [("issuedAt", .str "2025-11-01T10:00:00Z")]).map (fun r => r.timestamp) =
      some (.str "2025-11-01T10:00:00Z") := rfl
  refine ⟨h0, ?_⟩
  rw [h0]
  simp

/-- C8 amended: the reference payload parses to amount 100 and status
"SUCCESS"; a missing `status` key defaults to "UNKNOWN"; and a missing
`timestamp` falls back to the `issuedAt` field when that is present and
truthy, and only otherwise to the current time. -/
theorem from_dict_parsing (now : String) (data : List (String × Json))
    (r : TransferResponse) (v : Json) :
    (∃ r0, TransferResponse.from_dict now
        [("transactionId", .str "txn-123"), ("status", .str "SUCCESS"),
         ("fromAccount", .str "ACC1000"), ("toAccount", .str "ACC1001"),
         ("amount", .num 100), ("timestamp", .str "2025-11-01T10:00:00Z")] = some r0 ∧
      r0.amount = 100 ∧ r0.status = .str "SUCCESS") ∧
    (data.lookup "status" = none → TransferResponse.from_dict now data = some r →
      r.status = .str "UNKNOWN") ∧
    (data.lookup "timestamp" = none → data.lookup "issuedAt" = some v → v.truthy →
      TransferResponse.from_dict now data = some r → r.timestamp = v) ∧
    (data.lookup "timestamp" = none → data.lookup "issuedAt" = none →
      TransferResponse.from_dict now data = some r → r.timestamp = .str now) := by
  refine ⟨⟨_, rfl, rfl, rfl⟩, ?_, ?_, ?_⟩
  · intro hs hr
    obtain ⟨amount, nfb, ntb, h1, h2, h3, rfl⟩ := (from_dict_eq_some_iff now data r).mp hr
    simp [dictGetD, hs]
  · intro hts hia htr hr
    obtain ⟨amount, nfb, ntb, h1, h2, h3, rfl⟩ := (from_dict_eq_some_iff now data r).mp hr
    have hnull : Json.null.truthy = false := rfl
    simp [dictGetD, hts, hia, Json.pyOr, htr, hnull]
  · intro hts hia hr
    obtain ⟨amount, nfb, ntb, h1, h2, h3, rfl⟩ := (from_dict_eq_some_iff now data r).mp hr
    simp [dictGetD, hts, hia, Json.pyOr, Json.truthy]

/-- C8 amended witness: the reference payload parses as stated, and a
payload with neither `timestamp` nor `issuedAt` gets the current time. -/
theorem from_dict_parsing_witness :
    (∃ r0, TransferResponse.from_dict "NOW"
        [("transactionId", .str "txn-123"), ("status", .str "SUCCESS"),
         ("fromAccount", .str "ACC1000"), ("toAccount", .str "ACC1001"),
         ("amount", .num 100), ("timestamp", .str "2025-11-01T10:00:00Z")] = some r0 ∧
      r0.amount = 100 ∧ r0.status = .str "SUCCESS") ∧
    (∀ r, TransferResponse.from_dict "NOW" [("amount", .num 1)] = some r →
      r.timestamp = .str "NOW") := by
  refine ⟨(from_dict_parsing "NOW" []
    ⟨.null, .null, .null, .null, 0, .null, .null, .null, .null, none, none⟩ .null).1, ?_⟩
  intro r hr
  exact (from_dict_parsing "NOW" [("amount", .num 1)] r .null).2.2.2 rfl rfl hr

/-- C9: `from_dict` reads the wire keys `newFromAccountBalance` /
`newToAccountBalance` with a truthiness (not membership) presence test:
a present numeric value 0 parses to `None`, a present non-zero numeric
value parses to the exact decimal, and when the `newFromAccountBalance`
key is absent the field is `None` no matter what other keys (such as the
spec's `newFromBalance`) the object carries. -/
theorem from_dict_balance_keys (now : String) (data : List (String × Json))
    (r : TransferResponse) (q : ℚ) :
    (data.lookup "newFromAccountBalance" = some (.num 0) →
      TransferResponse.from_dict now data = some r → r.new_from_balance = none) ∧
    (data.lookup "newToAccountBalance" = some (.num 0) →
      TransferResponse.from_dict now data = some r → r.new_to_balance = none) ∧
    (data.lookup "newFromAccountBalance" = some (.num q) → q ≠ 0 →
      TransferResponse.from_dict now data = some r → r.new_from_balance = some q) ∧
    (data.lookup "newFromAccountBalance" = none →
      TransferResponse.from_dict now data = some r → r.new_from_balance = none) := by
  refine ⟨?_, ?_, ?_, ?_⟩
  · intro hk hr
    obtain ⟨amount, nfb, ntb, h1, h2, h3, rfl⟩ := (from_dict_eq_some_iff now data r).mp hr
    simp [parseWireBalance, dictGetD, hk, Json.truthy] at h2
    simp [← h2]
  · intro hk hr
    obtain ⟨amount, nfb, ntb, h1, h2, h3, rfl⟩ := (from_dict_eq_some_iff now data r).mp hr
    simp [parseWireBalance, dictGetD, hk, Json.truthy] at h3
    simp [← h3]
  · intro hk hq hr
    obtain ⟨amount, nfb, ntb, h1, h2, h3, rfl⟩ := (from_dict_eq_some_iff now data r).mp hr
    simp [parseWireBalance, dictGetD, hk, Json.truthy, hq, decimalOfJson] at h2
    simp [← h2]
  · intro hk hr
    obtain ⟨amount, nfb, ntb, h1, h2, h3, rfl⟩ := (from_dict_eq_some_iff now data r).mp hr
    simp [parseWireBalance, dictGetD, hk, Json.truthy] at h2
    simp [← h2]

/-- C9 witness: concrete payloads — balance 0 present parses to `None`,
balance 250.50 parses exactly, and an object carrying only the spec's
`newFromBalance` spelling leaves the field `None`. -/
theorem from_dict_balance_keys_witness :
    (∀ r, TransferResponse.from_dict "T" [("newFromAccountBalance", .num 0)] = some r →
      r.new_from_balance = none) ∧
    (∀ r, TransferResponse.from_dict "T" [("newFromAccountBalance", .num (501/2))] = some r →
      r.new_from_balance = some (501/2)) ∧
    (∀ r, TransferResponse.from_dict "T" [("newFromBalance", .num (501/2))] = some r →
      r.new_from_balance = none) := by
  refine ⟨?_, ?_, ?_⟩
  · intro r hr
    exact (from_dict_balance_keys "T" [("newFromAccountBalance", .num 0)] r 0).1 rfl hr
  · intro r hr
    exact (from_dict_balance_keys "T" [("newFromAccountBalance", .num (501/2))] r (501/2)).2.2.1
      rfl (by norm_num) hr
  · intro r hr
    exact (from_dict_balance_keys "T" [("newFromBalance", .num (501/2))] r 0).2.2.2 rfl hr

/-- C10: a successful `TransferService.authenticate` stores the obtained
token into the client via `set_auth_token` (non-expiring, type
"Bearer"), so every subsequent request at any instant attaches the
`Authorization: Bearer <token>` header; a failed authentication leaves
the client state untouched. -/
theorem authenticate_stores_token (cfg : Config) (tr : Transport) (st : ClientState) :
    (∀ tok st2, TransferService.authenticate cfg tr st = (some tok, st2) →
      st2.auth_token = some { token := tok, expires_at := none, token_type := "Bearer" } ∧
      ∀ now, requestHeaders st2 now = [("Authorization", "Bearer " ++ tok.pyStr)]) ∧
    (∀ st2, TransferService.authenticate cfg tr st = (none, st2) → st2 = st) := by
  constructor
  · intro tok st2 h
    rw [TransferService.authenticate.eq_def] at h
    cases hg : get_auth_token cfg tr with
    | ok token =>
        rw [hg] at h
        simp only [Prod.mk.injEq, Option.some.inj] at h
        obtain ⟨htok, hst⟩ := h
        cases htok
        subst hst
        refine ⟨rfl, ?_⟩
        intro now
        simp [requestHeaders, set_auth_token, AuthToken.is_expired, AuthToken.get_header_value]
    | error e =>
        rw [hg] at h
        simp at h
  · intro st2 h
    rw [TransferService.authenticate.eq_def] at h
    cases hg : get_auth_token cfg tr with
    | ok token => rw [hg] at h; simp at h
    | error e => rw [hg] at h; exact (Prod.mk.injEq .. |>.mp h).2.symm

/-- C10 witness: with a transport answering `{token: "tok-1"}`, the
stored token is "tok-1" and the header is attached at instant 5. -/
theorem authenticate_stores_token_witness :
    TransferService.authenticate Config.defaults
        (fun _ => .response 200 "" (some (.obj [("token", .str "tok-1")]))) ⟨none⟩ =
      (some (.str "tok-1"),
        ⟨some { token := .str "tok-1", expires_at := none, token_type := "Bearer" }⟩) ∧
    requestHeaders
        ⟨some { token := .str "tok-1", expires_at := none, token_type := "Bearer" }⟩ 5 =
      [("Authorization", "Bearer tok-1")] := by
  have heq : TransferService.authenticate Config.defaults
      (fun _ => .response 200 "" (some (.obj [("token", .str "tok-1")]))) ⟨none⟩ =
      (some (.str "tok-1"),
        ⟨some { token := .str "tok-1", expires_at := none, token_type := "Bearer" }⟩) := by
    rw [TransferService.authenticate.eq_def]
    have : get_auth_token Config.defaults
        (fun _ => .response 200 "" (some (.obj [("token", .str "tok-1")]))) =
        .ok (.str "tok-1") := by
      simp only [get_auth_token, request]
      rw [makeRequest.eq_def]
      rfl
    rw [this]
    rfl
  refine ⟨heq, ?_⟩
  exact ((authenticate_stores_token Config.defaults
    (fun _ => .response 200 "" (some (.obj [("token", .str "tok-1")]))) ⟨none⟩).1
    (.str "tok-1") _ heq).2 5

/-- Back-off/retry lemma: if the `k` attempts starting at `retry_count = rc`
are transient failures, the budget allows them (`rc + k ≤ max_retries`), and
attempt `rc + k` answers with a success status and a JSON body, then
`_make_request` returns that body after sleeping `2^rc, …, 2^(rc+k-1)`
seconds. -/
theorem makeRequest_retry_succeeds (cfg : Config) (tr : Transport)
    (method endpoint : String) (k : Nat) :
    ∀ rc, (∀ i, i < k → (tr (rc + i)).transient) → rc + k ≤ cfg.max_retries →
    ∀ status text j, tr (rc + k) = .response status text (some j) → status < 400 →
    makeRequest cfg tr method endpoint rc =
      (.ok j, (List.range' rc k).map (fun i => 2 ^ i)) := by
  induction k with
  | zero =>
      intro rc _ _ status text j hsucc hst
      rw [Nat.add_zero] at hsucc
      rw [makeRequest.eq_def, hsucc]
      simp [Nat.not_le.mpr hst]
  | succ k ih =>
      intro rc htrans hle status text j hsucc hst
      have h0 : (tr rc).transient := by
        have := htrans 0 (Nat.succ_pos k)
        simpa using this
      have hrc : rc < cfg.max_retries := by omega
      have hrec := ih (rc + 1)
        (fun i hi => by
          have := htrans (i + 1) (by omega)
          have harr : rc + (i + 1) = rc + 1 + i := by omega
          rwa [harr] at this)
        (by omega) status text j
        (by
          have harr : rc + 1 + k = rc + (k + 1) := by omega
          rw [harr]; exact hsucc) hst
      rw [makeRequest.eq_def]
      rw [List.range'_succ]
      rcases h0 with h0 | ⟨e, h0⟩ <;> rw [h0] <;> simp [hrc, hrec]

/-- Exhaustion lemma: if every attempt from `rc` through `max_retries` is
a transient failure, `_make_request` raises a `ConnectionError` whose
message contains the configured base URL, after sleeping
`2^rc, …, 2^(max_retries-1)` seconds. -/
theorem makeRequest_exhausts_aux (cfg : Config) (tr : Transport)
    (method endpoint : String) :
    ∀ n rc, cfg.max_retries - rc = n → rc ≤ cfg.max_retries →
    (∀ i, rc ≤ i → i ≤ cfg.max_retries → (tr i).transient) →
    ∃ a b, makeRequest cfg tr method endpoint rc =
      (.error (.connectionError (a ++ cfg.base_url ++ b)),
        (List.range' rc n).map (fun i => 2 ^ i)) := by
  intro n
  induction n with
  | zero =>
      intro rc h0 hrc hall
      have hnlt : ¬ rc < cfg.max_retries := by omega
      have htr := hall rc le_rfl (by omega)
      rw [makeRequest.eq_def]
      rcases htr with h | ⟨e, h⟩
      · refine ⟨"Request timeout after " ++ toString cfg.timeout ++ "s: " ++ method ++ " ",
          endpoint, ?_⟩
        rw [h]
        simp [hnlt, String.append_assoc]
      · refine ⟨"Connection failed: " ++ e
          ++ "\nPlease ensure the banking server is running at ", "", ?_⟩
        rw [h]
        simp [hnlt, String.append_assoc]
  | succ n ih =>
      intro rc h0 hrc hall
      have hlt : rc < cfg.max_retries := by omega
      have htr := hall rc le_rfl (by omega)
      obtain ⟨a, b, hrec⟩ := ih (rc + 1) (by omega) (by omega)
        (fun i h1 h2 => hall i (by omega) h2)
      refine ⟨a, b, ?_⟩
      rw [makeRequest.eq_def, List.range'_succ]
      rcases htr with h | ⟨e, h⟩ <;> rw [h] <;> simp [hlt, hrec]

/-- C5: on transient failures (timeout or connection refusal)
`_make_request` performs up to `max_retries` additional attempts with
doubling back-off sleeps `2^0, 2^1, 2^2, …`; an attempt that succeeds
within the budget returns the success result, and once every allowed
attempt has failed it raises a `ConnectionError` whose message contains
the configured base URL. -/
theorem retry_with_exponential_backoff :
    (∀ (cfg : Config) (tr : Transport) (method endpoint : String) (k status : Nat)
        (text : String) (j : Json),
      (∀ i, i < k → (tr i).transient) → k ≤ cfg.max_retries →
      tr k = .response status text (some j) → status < 400 →
      makeRequest cfg tr method endpoint 0 =
        (.ok j, (List.range k).map (fun i => 2 ^ i))) ∧
    (∀ (cfg : Config) (tr : Transport) (method endpoint : String),
      (∀ i, i ≤ cfg.max_retries → (tr i).transient) →
      ∃ a b, makeRequest cfg tr method endpoint 0 =
        (.error (.connectionError (a ++ cfg.base_url ++ b)),
          (List.range cfg.max_retries).map (fun i => 2 ^ i))) := by
  constructor
  · intro cfg tr method endpoint k status text j htrans hk hsucc hst
    rw [List.range_eq_range']
    exact makeRequest_retry_succeeds cfg tr method endpoint k 0
      (fun i hi => by simpa using htrans i hi) (by omega) status text j
      (by simpa using hsucc) hst
  · intro cfg tr method endpoint hall
    rw [List.range_eq_range']
    have := makeRequest_exhausts_aux cfg tr method endpoint cfg.max_retries 0 rfl
      (Nat.zero_le _) (fun i _ h2 => hall i h2)
    simpa using this

/-- C5 witness: with `max_retries = 3`, a transport refusing the first
two attempts and succeeding on the third returns the body after sleeping
1s then 2s; an always-timing-out transport exhausts all retries after
sleeping 1s, 2s, 4s and raises with the base URL in the message. -/
theorem retry_with_exponential_backoff_witness :
    makeRequest Config.defaults
        (fun i => if i < 2 then .connectionFailure "refused"
          else .response 200 "ok" (some (.obj [("ok", .bool true)])))
        "GET" "/accounts" 0 =
      (.ok (.obj [("ok", .bool true)]), [1, 2]) ∧
    (∃ a b, makeRequest Config.defaults (fun _ => .timeout) "GET" "/accounts" 0 =
      (.error (.connectionError (a ++ "http://localhost:8123" ++ b)), [1, 2, 4])) := by
  constructor
  · have h := retry_with_exponential_backoff.1 Config.defaults
      (fun i => if i < 2 then .connectionFailure "refused"
        else .response 200 "ok" (some (.obj [("ok", .bool true)])))
      "GET" "/accounts" 2 200 "ok" (.obj [("ok", .bool true)])
      (fun i hi => by
        simp only [if_pos hi]
        exact Or.inr ⟨"refused", rfl⟩)
      (by norm_num [Config.defaults]) (by norm_num) (by norm_num)
    simpa using h
  · have h := retry_with_exponential_backoff.2 Config.defaults (fun _ => .timeout)
      "GET" "/accounts" (fun i _ => Or.inl rfl)
    obtain ⟨a, b, hab⟩ := h
    exact ⟨a, b, by simpa [Config.defaults] using hab⟩
